import Mathlib

/-!
Shallow embedding of the OpenDrive backend (`src/opendrive/opendrive.go`) of
this repository, together with spec-modelled stand-ins for the small pieces of
repository code the backend calls that are not under `src/` (the `fs` retry
helpers, the `pacer` configuration setters, and the `dircache` walking loops).
Remote I/O is made explicit: every function that in Go performs a paced HTTP
call here takes the outcome of that call as an argument of type `Except Err _`.
-/

namespace OpendriveSpec

/-- Go `error` values appearing in the backend: plain `fmt.Errorf` messages,
wrapped errors (`errors.Wrap`), and network-transport errors (the class the
retry helper recognises). -/
inductive Err where
  | simple (msg : String)
  | netTransport (msg : String)
  | wrap (msg : String) (inner : Err)
deriving DecidableEq, Repr

/-- The part of Go `*http.Response` the backend inspects. -/
structure Response where
  statusCode : Nat
deriving DecidableEq, Repr

/-- A child directory of a remote listing (the `Folder` struct of the OpenDrive
API types, used by `opendrive.go`): name, remote identifier, modification time. -/
structure Folder where
  name : String
  folderID : String
  dateModified : Int
deriving DecidableEq, Repr

/-- A child file of a remote listing (the `File` struct of the OpenDrive API
types, used by `opendrive.go`): name, remote identifier, size, modification time. -/
structure File where
  name : String
  fileID : String
  size : Int
  dateModified : Int
deriving DecidableEq, Repr

/-- The result of one `/folder/list.json` call: child folders and child files. -/
structure FolderList where
  folders : List Folder
  files : List File
deriving DecidableEq, Repr

/-- Session data returned by `/session/login.json`. -/
structure UserSessionInfo where
  sessionID : String
deriving DecidableEq, Repr

/-- The fields of the Go `Object` struct that `newObjectWithInfo` fills in
(`fs` back-pointer omitted; `modTime` kept as the unix seconds passed to
`time.Unix`). -/
structure Object where
  remote : String
  id : String
  modTime : Int
  size : Int
deriving DecidableEq, Repr

/-- Outcome of a Go function that can also crash: normal return, error return,
or a runtime panic (used to model the nil-pointer dereference). -/
inductive GoResult (α : Type) where
  | ok (a : α)
  | err (e : Err)
  | panicked (msg : String)
deriving DecidableEq, Repr

/-- The Go runtime's message for dereferencing a nil pointer. -/
def nilDerefMsg : String := "runtime error: invalid memory address or nil pointer dereference"

/-- Embeds `Fs.newObjectWithInfo` (opendrive.go lines 288-299): builds an
`Object` from `file.FileID`, `file.DateModified`, `file.Size`.  The Go code
dereferences `file` unconditionally, so a nil `file` (here `none`) panics. -/
def newObjectWithInfo (remote : String) (file : Option File) : GoResult Object :=
  match file with
  | none => .panicked nilDerefMsg
  | some fi => .ok { remote := remote, id := fi.fileID, modTime := fi.dateModified, size := fi.size }

/-- Embeds `Fs.NewObject` (opendrive.go lines 303-305): calls
`newObjectWithInfo(remote, nil)`. -/
def NewObject (remote : String) : GoResult Object :=
  newObjectWithInfo remote none

/-- Embeds `retryErrorCodes` (opendrive.go lines 323-332). -/
def retryErrorCodes : List Nat := [400, 401, 408, 429, 500, 502, 503, 504]

/-- Modelled from the spec: `fs.ShouldRetry` (package `fs` of this repository,
not under `src/`) — true exactly when the error is a network-transport error
("Canonical retryable classes: network-transport errors, ..."). -/
def ShouldRetry (err : Option Err) : Bool :=
  match err with
  | some (.netTransport _) => true
  | _ => false

/-- Modelled from the spec: `fs.ShouldRetryHTTP` (package `fs` of this
repository, not under `src/`) — true exactly when there is a response whose
HTTP status code is in the given retry set. -/
def ShouldRetryHTTP (resp : Option Response) (retryErrorCodes : List Nat) : Bool :=
  match resp with
  | none => false
  | some r => retryErrorCodes.contains r.statusCode

/-- Embeds `Fs.shouldRetry` (opendrive.go lines 336-352):
`return fs.ShouldRetry(err) || fs.ShouldRetryHTTP(resp, retryErrorCodes), err`. -/
def shouldRetry (resp : Option Response) (err : Option Err) : Bool × Option Err :=
  (ShouldRetry err || ShouldRetryHTTP resp retryErrorCodes, err)

/-- Embeds `Fs.CreateDir` (opendrive.go lines 357-374): the body is stubbed and
unconditionally returns `"", fmt.Errorf("CreateDir not implemented")`. -/
def CreateDir (pathID leaf : String) : Except Err String :=
  .error (.simple "CreateDir not implemented")

/-- Embeds `Fs.FindLeaf` (opendrive.go lines 377-417).  The paced
`/folder/list.json` call is passed in as `listing`; on its failure the error is
wrapped as in the source.  The two Go `for` loops return on the first folder,
then the first file, whose name equals `leaf`. -/
def FindLeaf (pathID leaf : String) (listing : Except Err FolderList) :
    Except Err (String × Bool) :=
  if pathID = "0" ∧ leaf = "" then
    .ok (pathID, true)
  else
    match listing with
    | .error e => .error (.wrap "failed to get folder list" e)
    | .ok folderList =>
      match folderList.folders.find? (fun folder => leaf == folder.name) with
      | some folder => .ok (folder.folderID, true)
      | none =>
        match folderList.files.find? (fun file => leaf == file.name) with
        | some file => .ok (file.fileID, true)
        | none => .ok ("", false)

/-- One pending recursive-listing unit (`dircache.ListDirJob` as used by the
backend): remote directory identifier, path with trailing slash, remaining
depth.  Depth is a Go `int`, so it can be negative. -/
structure ListDirJob where
  dirID : String
  path : String
  depth : Int
deriving DecidableEq, Repr

/-- The part of `fs.ListOpts` that `ListDir` uses for directories, as pure
decision functions of the remote path: `IncludeDirectory` (the caller's
filter) and the abort flag returned by `AddDir`. -/
structure ListOpts where
  includeDirectory : String → Bool
  addDirStops : String → Bool

/-- An observable effect `ListDir` performs on its `out` sink: a directory
entry added by `AddDir` (with its `When` time), a file entry added by `Add`,
or an error reported by `SetError`. -/
inductive OutEvent where
  | addDir (remote : String) (whenTime : Int)
  | addFile (remote : String) (id : String)
  | setError (e : Err)
deriving DecidableEq, Repr

/-- Embeds one iteration of the folder loop of `Fs.ListDir` (opendrive.go
lines 437-454): if `out.IncludeDirectory(remote)` the directory entry is added
(`AddDir`), and — unless `AddDir` signals a stop — a child job with depth one
less is appended when `job.Depth > 0`. -/
def processFolder (out : ListOpts) (job : ListDirJob) (folder : Folder) :
    List OutEvent × List ListDirJob :=
  let remote := job.path ++ folder.name
  if out.includeDirectory remote then
    let ev := OutEvent.addDir remote folder.dateModified
    if out.addDirStops remote then
      ([ev], [])
    else if job.depth > 0 then
      ([ev], [{ dirID := folder.folderID, path := remote ++ "/", depth := job.depth - 1 }])
    else
      ([ev], [])
  else
    ([], [])

/-- Embeds one iteration of the file loop of `Fs.ListDir` (opendrive.go lines
456-465), parameterised by the object constructor `mkObj` (in the source,
`newObjectWithInfo` with a non-nil file): a construction failure goes to
`out.SetError` and the loop continues; otherwise the object goes to `out.Add`. -/
def processFile (mkObj : String → File → Except Err Object) (job : ListDirJob)
    (file : File) : OutEvent :=
  let remote := job.path ++ file.name
  match mkObj remote file with
  | .error e => .setError e
  | .ok o => .addFile o.remote o.id

/-- Embeds `Fs.ListDir` (opendrive.go lines 420-468), parameterised by the
object constructor.  The paced `/folder/list.json` call is passed in as
`listing`; on its failure `ListDir` returns nil jobs and the wrapped error
(lines 433-435).  Otherwise the folder loop emits directory events and
collects the child jobs, then the file loop emits one event per file. -/
def ListDirCore (mkObj : String → File → Except Err Object) (out : ListOpts)
    (job : ListDirJob) (listing : Except Err FolderList) :
    List OutEvent × Except Err (List ListDirJob) :=
  match listing with
  | .error e => ([], .error (.wrap "failed to get folder list" e))
  | .ok folderList =>
    let folderEvents := folderList.folders.flatMap (fun folder => (processFolder out job folder).1)
    let childJobs := folderList.folders.flatMap (fun folder => (processFolder out job folder).2)
    let fileEvents := folderList.files.map (processFile mkObj job)
    (folderEvents ++ fileEvents, .ok childJobs)

/-- The object constructor `Fs.ListDir` actually uses: `newObjectWithInfo` on
the (always non-nil) address of the loop variable `file`. -/
def mkObjSrc (remote : String) (file : File) : Except Err Object :=
  match newObjectWithInfo remote (some file) with
  | .ok o => .ok o
  | .err e => .error e
  | .panicked msg => .error (.simple msg)

/-- `Fs.ListDir` as in the source: `ListDirCore` instantiated with the real
object constructor. -/
def ListDir (out : ListOpts) (job : ListDirJob) (listing : Except Err FolderList) :
    List OutEvent × Except Err (List ListDirJob) :=
  ListDirCore mkObjSrc out job listing

/-- Go `time.Millisecond` in nanoseconds. -/
def timeMillisecond : Int := 1000000

/-- Go `time.Minute` in nanoseconds. -/
def timeMinute : Int := 60000000000

/-- Embeds the constant `minSleep = 10 * time.Millisecond` (opendrive.go line 19). -/
def minSleep : Int := 10 * timeMillisecond

/-- Embeds the constant `maxSleep = 5 * time.Minute` (opendrive.go line 20). -/
def maxSleep : Int := 5 * timeMinute

/-- Embeds the constant `decayConstant = 1` (opendrive.go line 21). -/
def decayConstant : Nat := 1

/-- The configuration fields of a `pacer.Pacer` (package `pacer` of this
repository, not under `src/`): sleep bounds in nanoseconds and the decay
constant. -/
structure Pacer where
  minSleep : Int
  maxSleep : Int
  decayConstant : Nat
deriving DecidableEq, Repr

/-- Modelled from the spec: `pacer.New` (package `pacer`, not under `src/`)
with the spec's default knobs — `minSleep` 10 ms, `maxSleep` 5 min,
`decayConstant` 1 ("Configuration knobs (all with defaults, all overridable
per instance)"). -/
def Pacer.new : Pacer :=
  { minSleep := 10 * timeMillisecond, maxSleep := 5 * timeMinute, decayConstant := 1 }

/-- Modelled from the spec: `Pacer.SetMinSleep` — overrides the `minSleep` knob. -/
def Pacer.setMinSleep (p : Pacer) (v : Int) : Pacer := { p with minSleep := v }

/-- Modelled from the spec: `Pacer.SetMaxSleep` — overrides the `maxSleep` knob. -/
def Pacer.setMaxSleep (p : Pacer) (v : Int) : Pacer := { p with maxSleep := v }

/-- Modelled from the spec: `Pacer.SetDecayConstant` — overrides the decay knob. -/
def Pacer.setDecayConstant (p : Pacer) (v : Nat) : Pacer := { p with decayConstant := v }

/-- The fields of the Go `Fs` struct that `NewFs` fills in (REST client and
directory cache kept as their configuration data: the dircache root id). -/
structure Fs where
  name : String
  username : String
  password : String
  pacer : Pacer
  session : UserSessionInfo
  rootID : String
deriving DecidableEq, Repr

/-- Embeds `NewFs` (opendrive.go lines 98-184).  Config reading and the paced
login call are passed in: `username` from the config file, `password` the
outcome of `fs.Reveal`, `login` the outcome of the `/session/login.json` call.
The empty-string checks, the pacer construction chain
`pacer.New().SetMinSleep(minSleep).SetMaxSleep(maxSleep).SetDecayConstant(decayConstant)`
(line 119), the dircache root `"0"` (line 122), and error wrapping follow the
source. -/
def NewFs (name : String) (username : String) (password : Except Err String)
    (login : Except Err UserSessionInfo) : Except Err Fs :=
  if username = "" then .error (.simple "username not found")
  else
    match password with
    | .error _ => .error (.simple "password coudl not revealed")
    | .ok pw =>
      if pw = "" then .error (.simple "password not found")
      else
        let p := ((Pacer.new.setMinSleep minSleep).setMaxSleep maxSleep).setDecayConstant decayConstant
        match login with
        | .error e => .error (.wrap "failed to create session" e)
        | .ok sess =>
          .ok { name := name, username := username, password := pw,
                pacer := p, session := sess, rootID := "0" }

/-- A remote call issued by the path resolver, for call-trace bookkeeping. -/
inductive RemoteCall where
  | findLeafCall (parentID leaf : String)
  | createDirCall (parentID leaf : String)
deriving DecidableEq, Repr

/-- Outcome kinds of a resolution: the backend capabilities' errors, or the
resolver's own not-found failure. -/
inductive ResolveErr where
  | notFound
  | backendErr (e : Err)
deriving DecidableEq, Repr

/-- Modelled from the spec: the segment-walking loop of the directory cache's
`Resolve` (package `dircache`, not under `src/`), §4.2 steps 3-5: resolve one
segment at a time via `FindLeaf(currentID, segment)`; if a segment is not
found, fail with not-found when `createIfMissing` is false, else call
`CreateDir(currentID, segment)`.  The cache layer (steps 2 and 6) is omitted:
the claims settled against this definition concern only the lookup/create
calls issued (returned as a trace) and the not-found outcome. -/
def resolveWalk (flf : String → String → Except Err (String × Bool))
    (cdf : String → String → Except Err String) (createIfMissing : Bool) :
    String → List String → Except ResolveErr String × List RemoteCall
  | currentID, [] => (.ok currentID, [])
  | currentID, seg :: rest =>
    match flf currentID seg with
    | .error e => (.error (.backendErr e), [.findLeafCall currentID seg])
    | .ok (id, true) =>
      let r := resolveWalk flf cdf createIfMissing id rest
      (r.1, .findLeafCall currentID seg :: r.2)
    | .ok (_, false) =>
      if createIfMissing then
        match cdf currentID seg with
        | .error e =>
          (.error (.backendErr e), [.findLeafCall currentID seg, .createDirCall currentID seg])
        | .ok newID =>
          let r := resolveWalk flf cdf createIfMissing newID rest
          (r.1, .findLeafCall currentID seg :: .createDirCall currentID seg :: r.2)
      else
        (.error .notFound, [.findLeafCall currentID seg])

/-- Modelled from the spec: the FIFO job-queue driver of recursive listing
(`dircache.DirCache.List`, package `dircache`, not under `src/`), §4.2
`EnumerateRecursive` steps 2 and 4: dequeue a job, run `ListDir` on it; on a
listing error report it to the sink and continue with the remaining queued
jobs; on success append the returned child jobs.  `fuel` bounds the number of
processed jobs so the walk is total. -/
def runQueue (step : ListDirJob → List OutEvent × Except Err (List ListDirJob)) :
    Nat → List ListDirJob → List OutEvent
  | 0, _ => []
  | _ + 1, [] => []
  | fuel + 1, job :: rest =>
    match step job with
    | (evs, .error e) => evs ++ OutEvent.setError e :: runQueue step fuel rest
    | (evs, .ok newJobs) => evs ++ runQueue step fuel (rest ++ newJobs)

/-! Concrete fixtures used by witnesses and counterexamples. -/

/-- A sink that accepts every directory and never signals a stop. -/
def outAll : ListOpts := { includeDirectory := fun _ => true, addDirStops := fun _ => false }

/-- A sink whose `IncludeDirectory` rejects every directory. -/
def outRejectAll : ListOpts := { includeDirectory := fun _ => false, addDirStops := fun _ => false }

/-- A sample child directory. -/
def folderA : Folder := { name := "a", folderID := "5", dateModified := 7 }

/-- A sample child file. -/
def fileB : File := { name := "b.txt", fileID := "9", size := 3, dateModified := 4 }

/-- A sample listing with one folder and one file. -/
def sampleList : FolderList := { folders := [folderA], files := [fileB] }

/-- The `Fs` value `NewFs "n" "u" (.ok "p") (.ok ⟨"sid"⟩)` constructs. -/
def sampleFs : Fs :=
  { name := "n", username := "u", password := "p",
    pacer := ((Pacer.new.setMinSleep minSleep).setMaxSleep maxSleep).setDecayConstant decayConstant,
    session := { sessionID := "sid" }, rootID := "0" }

/-! Helper lemmas about the folder loop. -/

/-- Any child job one folder iteration produces requires the parent job's
depth to be positive and carries depth one less. -/
lemma mem_processFolder_jobs {out : ListOpts} {job : ListDirJob} {folder : Folder}
    {j : ListDirJob} (h : j ∈ (processFolder out job folder).2) :
    0 < job.depth ∧ j.depth = job.depth - 1 := by
  by_cases h1 : out.includeDirectory (job.path ++ folder.name) = true
  · by_cases h2 : out.addDirStops (job.path ++ folder.name) = true
    · simp [processFolder, h1, h2] at h
    · by_cases h3 : 0 < job.depth
      · have hj : j = ListDirJob.mk folder.folderID (job.path ++ folder.name ++ "/")
            (job.depth - 1) := by
          simpa [processFolder, h1, h2, h3] using h
        subst hj
        exact ⟨h3, rfl⟩
      · simp [processFolder, h1, h2, h3] at h
  · simp [processFolder, h1] at h

/-- An accepted folder's iteration emits exactly its directory entry. -/
lemma processFolder_events_included {out : ListOpts} {job : ListDirJob} {folder : Folder}
    (h : out.includeDirectory (job.path ++ folder.name) = true) :
    (processFolder out job folder).1 =
      [OutEvent.addDir (job.path ++ folder.name) folder.dateModified] := by
  by_cases h2 : out.addDirStops (job.path ++ folder.name) = true
  · simp [processFolder, h, h2]
  · by_cases h3 : 0 < job.depth
    · simp [processFolder, h, h2, h3]
    · simp [processFolder, h, h2, h3]

/-- A rejected folder's iteration emits nothing and enqueues nothing. -/
lemma processFolder_rejected {out : ListOpts} {job : ListDirJob} {folder : Folder}
    (h : out.includeDirectory (job.path ++ folder.name) = false) :
    processFolder out job folder = ([], []) := by
  simp [processFolder, h]

/-- The `createIfMissing = false` walk never issues a create call. -/
lemma resolveWalk_no_create (flf : String → String → Except Err (String × Bool))
    (cdf : String → String → Except Err String) :
    ∀ (segs : List String) (id : String) (c : RemoteCall),
      c ∈ (resolveWalk flf cdf false id segs).2 →
      ∀ p l, c ≠ RemoteCall.createDirCall p l := by
  intro segs
  induction segs with
  | nil =>
    intro id c hc
    simp [resolveWalk] at hc
  | cons seg rest ih =>
    intro id c hc p l
    match hflf : flf id seg with
    | .error e =>
      simp [resolveWalk, hflf] at hc
      subst hc
      simp
    | .ok (nid, true) =>
      simp [resolveWalk, hflf] at hc
      rcases hc with hc | hc
      · subst hc
        simp
      · exact ih nid c hc p l
    | .ok (nid, false) =>
      simp [resolveWalk, hflf] at hc
      subst hc
      simp

/-! Theorems settling the claims. -/

/-- C1 counterexample: a job with depth -1 over a listing with one child
directory that the sink accepts (its filter returns true and `AddDir` does not
stop) enqueues no child job at all, refuting "depth -1 enqueues a child job
for every accepted child directory". -/
theorem listDir_neg_depth_counterexample :
    outAll.includeDirectory "a" = true ∧ outAll.addDirStops "a" = false ∧
    (ListDir outAll (ListDirJob.mk "0" "" (-1)) (.ok (FolderList.mk [folderA] []))).2 =
      .ok [] :=
  ⟨rfl, rfl, rfl⟩

/-- C1 (amended): a `ListDirJob` with negative depth enqueues no child jobs —
descent happens only while the depth is positive, so the unbounded case is not
depth -1. -/
theorem listDir_neg_depth_no_children (out : ListOpts) (job : ListDirJob)
    (fl : FolderList) (h : job.depth < 0) :
    (ListDir out job (.ok fl)).2 = .ok [] := by
  simp only [ListDir, ListDirCore, Except.ok.injEq]
  refine List.eq_nil_iff_forall_not_mem.mpr ?_
  intro j hmem
  rcases List.mem_flatMap.mp hmem with ⟨folder, _, hin⟩
  have := (mem_processFolder_jobs hin).1
  omega

/-- Witness for the amended C1 at a depth -2 job over the sample listing. -/
theorem listDir_neg_depth_no_children_witness :
    (ListDir outAll (ListDirJob.mk "0" "" (-2)) (.ok sampleList)).2 = .ok [] :=
  listDir_neg_depth_no_children outAll (ListDirJob.mk "0" "" (-2)) sampleList (by decide)

/-- C2: every child job `ListDir` appends has depth exactly one less than the
processed job's depth, and a job with depth 0 enqueues no child jobs. -/
theorem listDir_child_depth (out : ListOpts) (job : ListDirJob) (fl : FolderList)
    (jobs : List ListDirJob) (h : (ListDir out job (.ok fl)).2 = .ok jobs) :
    (∀ j ∈ jobs, j.depth = job.depth - 1) ∧ (job.depth = 0 → jobs = []) := by
  have hj : jobs = fl.folders.flatMap (fun folder => (processFolder out job folder).2) := by
    simpa [ListDir, ListDirCore] using h.symm
  subst hj
  constructor
  · intro j hmem
    rcases List.mem_flatMap.mp hmem with ⟨folder, _, hin⟩
    exact (mem_processFolder_jobs hin).2
  · intro h0
    refine List.eq_nil_iff_forall_not_mem.mpr ?_
    intro j hmem
    rcases List.mem_flatMap.mp hmem with ⟨folder, _, hin⟩
    have := (mem_processFolder_jobs hin).1
    omega

/-- Witness for C2 at a depth-2 job over the sample listing. -/
theorem listDir_child_depth_witness :
    (∀ j ∈ [ListDirJob.mk "5" "a/" 1], j.depth = (ListDirJob.mk "0" "" 2).depth - 1) ∧
    ((ListDirJob.mk "0" "" 2).depth = 0 → [ListDirJob.mk "5" "a/" 1] = []) :=
  listDir_child_depth outAll (ListDirJob.mk "0" "" 2) sampleList [ListDirJob.mk "5" "a/" 1] rfl

/-- C6 counterexample: with a sink whose `IncludeDirectory` rejects every
path, a listing that does return a child directory produces no output event at
all — the directory entry is not emitted, refuting "never whether the
directory entry itself is emitted". -/
theorem listDir_reject_counterexample :
    (FolderList.mk [folderA] []).folders = [folderA] ∧
    (ListDir outRejectAll (ListDirJob.mk "0" "" 3) (.ok (FolderList.mk [folderA] []))).1 =
      [] :=
  ⟨rfl, rfl⟩

/-- C6 (amended): a child directory accepted by the sink's `IncludeDirectory`
filter is emitted, and a child directory rejected by the filter is neither
emitted nor descended into — rejection suppresses the entry and the child job
alike. -/
theorem listDir_emit_included_only (out : ListOpts) (job : ListDirJob) (fl : FolderList)
    (folder : Folder) (hmem : folder ∈ fl.folders) :
    (out.includeDirectory (job.path ++ folder.name) = true →
      OutEvent.addDir (job.path ++ folder.name) folder.dateModified ∈
        (ListDir out job (.ok fl)).1) ∧
    (out.includeDirectory (job.path ++ folder.name) = false →
      processFolder out job folder = ([], [])) := by
  constructor
  · intro h
    have hev : OutEvent.addDir (job.path ++ folder.name) folder.dateModified ∈
        (processFolder out job folder).1 := by
      rw [processFolder_events_included h]
      exact List.mem_singleton_self _
    have hflat : OutEvent.addDir (job.path ++ folder.name) folder.dateModified ∈
        fl.folders.flatMap (fun folder => (processFolder out job folder).1) :=
      List.mem_flatMap.mpr ⟨folder, hmem, hev⟩
    simp only [ListDir, ListDirCore]
    exact List.mem_append_left _ hflat
  · intro h
    exact processFolder_rejected h

/-- Witness for the amended C6 at the sample listing's folder. -/
theorem listDir_emit_included_only_witness :
    (outAll.includeDirectory ((ListDirJob.mk "0" "" 1).path ++ folderA.name) = true →
      OutEvent.addDir ((ListDirJob.mk "0" "" 1).path ++ folderA.name) folderA.dateModified ∈
        (ListDir outAll (ListDirJob.mk "0" "" 1) (.ok sampleList)).1) ∧
    (outAll.includeDirectory ((ListDirJob.mk "0" "" 1).path ++ folderA.name) = false →
      processFolder outAll (ListDirJob.mk "0" "" 1) folderA = ([], [])) :=
  listDir_emit_included_only outAll (ListDirJob.mk "0" "" 1) sampleList folderA
    (by simp [sampleList])

/-- A failing object constructor used by the C7 witness. -/
def mkObjFail : String → File → Except Err Object := fun _ _ => .error (.simple "boom")

/-- A step function whose every job fails, used by the C7 witness. -/
def stepFail : ListDirJob → List OutEvent × Except Err (List ListDirJob) :=
  fun _ => ([], .error (.simple "subtree failed"))

/-- C7: a file whose object construction fails contributes a `SetError` event
while every file of the same listing still contributes its own event (the file
loop continues); a failed listing call makes `ListDir` return the wrapped
error with no events and no child jobs; and the queue driver reports a failed
job's error to the sink and continues with the remaining queued jobs, so one
bad subtree does not abort its siblings. -/
theorem listDir_partial_failure (mkObj : String → File → Except Err Object)
    (out : ListOpts) (job : ListDirJob) (fl : FolderList) (file : File) (e : Err)
    (step : ListDirJob → List OutEvent × Except Err (List ListDirJob))
    (fuel : Nat) (job2 : ListDirJob) (rest : List ListDirJob)
    (evs : List OutEvent) (e2 : Err)
    (hmem : file ∈ fl.files)
    (hfail : mkObj (job.path ++ file.name) file = .error e)
    (hstep : step job2 = (evs, .error e2)) :
    OutEvent.setError e ∈ (ListDirCore mkObj out job (.ok fl)).1 ∧
    (∀ f2 ∈ fl.files, processFile mkObj job f2 ∈ (ListDirCore mkObj out job (.ok fl)).1) ∧
    (∀ e3, ListDirCore mkObj out job (.error e3) =
      ([], .error (.wrap "failed to get folder list" e3))) ∧
    runQueue step (fuel + 1) (job2 :: rest) =
      evs ++ OutEvent.setError e2 :: runQueue step fuel rest := by
  refine ⟨?_, ?_, fun _ => rfl, ?_⟩
  · have hpf : processFile mkObj job file = .setError e := by
      simp [processFile, hfail]
    have hin : OutEvent.setError e ∈ fl.files.map (processFile mkObj job) := by
      rw [← hpf]
      exact List.mem_map_of_mem _ hmem
    simp only [ListDirCore]
    exact List.mem_append_right _ hin
  · intro f2 h2
    simp only [ListDirCore]
    exact List.mem_append_right _ (List.mem_map_of_mem _ h2)
  · simp [runQueue, hstep]

/-- Witness for C7: one failing file in a listing, and a failing job followed
by an empty queue. -/
theorem listDir_partial_failure_witness :
    OutEvent.setError (.simple "boom") ∈
      (ListDirCore mkObjFail outAll (ListDirJob.mk "0" "" 1) (.ok (FolderList.mk [] [fileB]))).1 ∧
    (∀ f2 ∈ (FolderList.mk [] [fileB]).files,
      processFile mkObjFail (ListDirJob.mk "0" "" 1) f2 ∈
        (ListDirCore mkObjFail outAll (ListDirJob.mk "0" "" 1) (.ok (FolderList.mk [] [fileB]))).1) ∧
    (∀ e3, ListDirCore mkObjFail outAll (ListDirJob.mk "0" "" 1) (.error e3) =
      ([], .error (.wrap "failed to get folder list" e3))) ∧
    runQueue stepFail (0 + 1) (ListDirJob.mk "1" "x/" 2 :: []) =
      [] ++ OutEvent.setError (.simple "subtree failed") :: runQueue stepFail 0 [] :=
  listDir_partial_failure mkObjFail outAll (ListDirJob.mk "0" "" 1)
    (FolderList.mk [] [fileB]) fileB (.simple "boom") stepFail 0
    (ListDirJob.mk "1" "x/" 2) [] [] (.simple "subtree failed")
    (List.mem_singleton_self fileB) rfl rfl

/-- C3: `shouldRetry` classifies a (response, error) pair as retryable exactly
when the error is a network-transport error or the response's HTTP status code
is one of 400, 401, 408, 429, 500, 502, 503, 504; it passes the error through
unchanged. -/
theorem shouldRetry_classification (resp : Option Response) (err : Option Err) :
    ((shouldRetry resp err).1 = true ↔
      ((∃ msg, err = some (Err.netTransport msg)) ∨
        (∃ r, resp = some r ∧ r.statusCode ∈ retryErrorCodes))) ∧
    (shouldRetry resp err).2 = err ∧
    retryErrorCodes = [400, 401, 408, 429, 500, 502, 503, 504] := by
  refine ⟨?_, rfl, rfl⟩
  constructor
  · intro h
    rcases Bool.or_eq_true_iff.mp h with h1 | h2
    · left
      match err, h1 with
      | some (.netTransport msg), _ => exact ⟨msg, rfl⟩
    · right
      match resp, h2 with
      | some r, h2 =>
        exact ⟨r, rfl, by simpa [ShouldRetryHTTP] using h2⟩
  · intro h
    rcases h with ⟨msg, hmsg⟩ | ⟨r, hr, hcode⟩
    · subst hmsg
      simp [shouldRetry, ShouldRetry]
    · subst hr
      simp [shouldRetry, ShouldRetryHTTP, hcode]

/-- C5: the source's `CreateDir` is a stub that fails for every input with the
error "CreateDir not implemented"; consequently the spec's scenario
`Resolve("x/y", true)` on an empty tree fails at the very first `CreateDir`
call (after one lookup and one create attempt for segment "x") instead of
succeeding with two creates. -/
theorem createDir_stub_always_fails :
    (∀ pathID leaf, CreateDir pathID leaf = .error (.simple "CreateDir not implemented")) ∧
    resolveWalk (fun id seg => FindLeaf id seg (.ok (FolderList.mk [] []))) CreateDir true
        "0" ["x", "y"] =
      (.error (.backendErr (.simple "CreateDir not implemented")),
        [.findLeafCall "0" "x", .createDirCall "0" "x"]) :=
  ⟨fun _ _ => rfl, rfl⟩

/-- C8: any backend instance an accepted `NewFs` run returns has its pacer
configured with `minSleep = 10 ms`, `maxSleep = 5 min` and `decayConstant = 1`
(in nanoseconds: 10000000 and 300000000000). -/
theorem newFs_pacer_config (name username : String) (password : Except Err String)
    (login : Except Err UserSessionInfo) (f : Fs)
    (h : NewFs name username password login = .ok f) :
    f.pacer.minSleep = 10 * timeMillisecond ∧
    f.pacer.maxSleep = 5 * timeMinute ∧
    f.pacer.decayConstant = 1 ∧
    10 * timeMillisecond = 10000000 ∧ 5 * timeMinute = 300000000000 := by
  unfold NewFs at h
  split at h
  · exact absurd h (by simp)
  · match password, h with
    | .ok pw, h =>
      simp only at h
      split at h
      · exact absurd h (by simp)
      · match login, h with
        | .ok sess, h =>
          simp only [Except.ok.injEq] at h
          subst h
          refine ⟨rfl, rfl, rfl, rfl, rfl⟩

/-- Witness for C8 at a concrete successful construction. -/
theorem newFs_pacer_config_witness :
    sampleFs.pacer.minSleep = 10 * timeMillisecond ∧
    sampleFs.pacer.maxSleep = 5 * timeMinute ∧
    sampleFs.pacer.decayConstant = 1 ∧
    10 * timeMillisecond = 10000000 ∧ 5 * timeMinute = 300000000000 :=
  newFs_pacer_config "n" "u" (.ok "p") (.ok { sessionID := "sid" }) sampleFs rfl

/-- C4 counterexample: at parent "0" with an empty leaf the root shortcut
answers found = true without consulting the listing, even though the listing
contains no folder and no file with that name — so the claim does not hold
for every parent identifier and leaf name. -/
theorem findLeaf_root_shortcut_counterexample :
    (FolderList.mk [] []).folders = [] ∧ (FolderList.mk [] []).files = [] ∧
    FindLeaf "0" "" (.ok (FolderList.mk [] [])) = .ok ("0", true) :=
  ⟨rfl, rfl, rfl⟩

/-- C4 (amended): when the listing for a parent contains no folder and no file
named `leaf` — except for the root shortcut `pathID = "0", leaf = ""`, which
answers found = true with no remote call — `FindLeaf` returns found = false
with no error, a not-found outcome distinct from a listing error; the
`createIfMissing = false` walk issues no `CreateDir` call on any input and
fails with not-found at an absent segment. -/
theorem findLeaf_absent_not_found (pathID leaf : String) (fl : FolderList)
    (flf : String → String → Except Err (String × Bool))
    (cdf : String → String → Except Err String)
    (id seg : String) (segs rest : List String)
    (hroot : ¬(pathID = "0" ∧ leaf = ""))
    (hfo : ∀ folder ∈ fl.folders, folder.name ≠ leaf)
    (hfi : ∀ file ∈ fl.files, file.name ≠ leaf)
    (habsent : flf id seg = .ok ("", false)) :
    FindLeaf pathID leaf (.ok fl) = .ok ("", false) ∧
    (∀ c ∈ (resolveWalk flf cdf false id segs).2, ∀ p l, c ≠ RemoteCall.createDirCall p l) ∧
    (resolveWalk flf cdf false id (seg :: rest)).1 = .error ResolveErr.notFound := by
  refine ⟨?_, fun c hc => resolveWalk_no_create flf cdf segs id c hc, ?_⟩
  · have h1 : fl.folders.find? (fun folder => leaf == folder.name) = none :=
      List.find?_eq_none.mpr (fun folder hm => by
        simp only [beq_iff_eq]
        exact fun h => (hfo folder hm) h.symm)
    have h2 : fl.files.find? (fun file => leaf == file.name) = none :=
      List.find?_eq_none.mpr (fun file hm => by
        simp only [beq_iff_eq]
        exact fun h => (hfi file hm) h.symm)
    simp [FindLeaf, hroot, h1, h2]
  · simp [resolveWalk, habsent]

/-- Witness for C4: leaf "z" absent from the sample listing; a one-segment
walk of an absent path with creation disabled. -/
theorem findLeaf_absent_not_found_witness :
    FindLeaf "7" "z" (.ok sampleList) = .ok ("", false) ∧
    (∀ c ∈ (resolveWalk (fun _ _ => .ok ("", false)) CreateDir false "0" ["z"]).2,
      ∀ p l, c ≠ RemoteCall.createDirCall p l) ∧
    (resolveWalk (fun _ _ => .ok ("", false)) CreateDir false "0" ("z" :: [])).1 =
      .error ResolveErr.notFound :=
  findLeaf_absent_not_found "7" "z" sampleList (fun _ _ => .ok ("", false)) CreateDir
    "0" "z" ["z"] [] (by decide) (by decide) (by decide) rfl

/-- C10: `FindLeaf` prefers folders — when some folder of the listing is named
`leaf` the result is that folder's identifier — and falls back to files: when
no folder but some file is named `leaf`, it returns found = true with the
file's identifier, which then enters the directory-cache as if it named a
directory. -/
theorem findLeaf_folder_priority_file_fallback (pathID leaf : String) (fl : FolderList)
    (hroot : ¬(pathID = "0" ∧ leaf = "")) :
    ((∃ folder ∈ fl.folders, folder.name = leaf) →
      ∃ folder ∈ fl.folders, folder.name = leaf ∧
        FindLeaf pathID leaf (.ok fl) = .ok (folder.folderID, true)) ∧
    ((∀ folder ∈ fl.folders, folder.name ≠ leaf) →
      (∃ file ∈ fl.files, file.name = leaf) →
      ∃ file ∈ fl.files, file.name = leaf ∧
        FindLeaf pathID leaf (.ok fl) = .ok (file.fileID, true)) := by
  constructor
  · intro hex
    have hsome : (fl.folders.find? (fun folder => leaf == folder.name)).isSome := by
      rw [List.find?_isSome]
      rcases hex with ⟨folder, hm, hn⟩
      exact ⟨folder, hm, by simp [hn]⟩
    rcases Option.isSome_iff_exists.mp hsome with ⟨folder, hfind⟩
    refine ⟨folder, List.mem_of_find?_eq_some hfind, ?_, ?_⟩
    · have hp := List.find?_some hfind
      simp only [beq_iff_eq] at hp
      exact hp.symm
    · simp [FindLeaf, hroot, hfind]
  · intro hnone hex
    have h1 : fl.folders.find? (fun folder => leaf == folder.name) = none :=
      List.find?_eq_none.mpr (fun folder hm => by
        simp only [beq_iff_eq]
        exact fun h => (hnone folder hm) h.symm)
    have hsome : (fl.files.find? (fun file => leaf == file.name)).isSome := by
      rw [List.find?_isSome]
      rcases hex with ⟨file, hm, hn⟩
      exact ⟨file, hm, by simp [hn]⟩
    rcases Option.isSome_iff_exists.mp hsome with ⟨file, hfind⟩
    refine ⟨file, List.mem_of_find?_eq_some hfind, ?_, ?_⟩
    · have hp := List.find?_some hfind
      simp only [beq_iff_eq] at hp
      exact hp.symm
    · simp [FindLeaf, hroot, h1, hfind]

/-- Witness for C10 at the sample listing and leaf "b.txt" (a file name that
is no folder's name). -/
theorem findLeaf_folder_priority_witness :
    ((∃ folder ∈ sampleList.folders, folder.name = "b.txt") →
      ∃ folder ∈ sampleList.folders, folder.name = "b.txt" ∧
        FindLeaf "7" "b.txt" (.ok sampleList) = .ok (folder.folderID, true)) ∧
    ((∀ folder ∈ sampleList.folders, folder.name ≠ "b.txt") →
      (∃ file ∈ sampleList.files, file.name = "b.txt") →
      ∃ file ∈ sampleList.files, file.name = "b.txt" ∧
        FindLeaf "7" "b.txt" (.ok sampleList) = .ok (file.fileID, true)) :=
  findLeaf_folder_priority_file_fallback "7" "b.txt" sampleList (by decide)

/-- C9: `NewObject` always reaches the nil dereference inside
`newObjectWithInfo` — it panics for every remote path, returns neither an
error value (in particular no not-found error) nor an object — while
`newObjectWithInfo` on a non-nil file always succeeds. -/
theorem newObject_nil_deref (remote : String) :
    NewObject remote = .panicked nilDerefMsg ∧
    (∀ e, NewObject remote ≠ GoResult.err e) ∧
    (∀ o, NewObject remote ≠ GoResult.ok o) ∧
    (∀ file, newObjectWithInfo remote (some file) =
      .ok (Object.mk remote file.fileID file.dateModified file.size)) :=
  ⟨rfl, fun _ h => by simp [NewObject, newObjectWithInfo] at h,
    fun _ h => by simp [NewObject, newObjectWithInfo] at h, fun _ => rfl⟩

end OpendriveSpec
